import Mathlib

/-!
Shallow embedding of the `RockPaperArena` smart contract
(src/contracts/contracts/RockPaperArena.sol) and proofs about its match
state machine, pending-match set maintenance and settlement table.

Modelling choices:
* Addresses are `Nat`; the zero address `0` is the "unset" identity, and a
  transaction sender is always nonzero (on Ethereum `msg.sender` is never
  the zero address).
* Encrypted move handles (`euint8`) are modelled by the cleartext `Nat`
  value they encrypt; the homomorphic operations `FHE.eq`, `FHE.and`,
  `FHE.or`, `FHE.select` become the corresponding cleartext operations.
  `FHE.fromExternal` with a valid proof yields the submitted value (an
  invalid proof aborts the whole call, which in this embedding corresponds
  to the call simply not happening); `FHE.allowThis` is an ACL no-op with
  no observable state.
* Solidity mappings become total functions with the zero-initialised
  struct as default; `revert` becomes `Except.error`.
-/

namespace RockPaperArena

/-- The `MatchState` enum of the contract. -/
inductive MatchState where
  | None
  | Waiting
  | BothCommitted
  | Revealed
  | Cancelled
deriving DecidableEq, Repr

/-- The `Match` struct of the contract; all fields default to their
Solidity zero value. -/
structure Match where
  matchId : Nat := 0
  player1 : Nat := 0
  player2 : Nat := 0
  move1 : Nat := 0
  move2 : Nat := 0
  player1Committed : Bool := false
  player2Committed : Bool := false
  createdAt : Nat := 0
  state : MatchState := MatchState.None
  winner : Nat := 0
deriving DecidableEq, Repr

/-- The zero-initialised `Match` struct (value of `matches[id]` for any
never-written id). -/
def emptyMatch : Match := {}

/-- The `PlayerStats` struct of the contract. -/
structure PlayerStats where
  wins : Nat := 0
  losses : Nat := 0
  draws : Nat := 0
  totalMatches : Nat := 0
  currentStreak : Nat := 0
deriving DecidableEq, Repr

/-- The custom errors of the contract. -/
inductive ContractError where
  | AlreadyInMatch
  | InvalidMatchId
  | MatchNotWaiting
  | UnauthorizedPlayer
  | MoveAlreadyCommitted
  | MatchNotReady
  | InvalidGesture
deriving DecidableEq, Repr

/-- The events the contract emits. -/
inductive Event where
  | MatchCreated (matchId : Nat) (player1 : Nat)
  | MatchJoined (matchId : Nat) (player2 : Nat)
  | MoveCommitted (matchId : Nat) (player : Nat)
  | MatchRevealed (matchId : Nat) (winner : Nat) (result : Nat)
  | MatchCancelled (matchId : Nat)
deriving DecidableEq, Repr

/-- Pointwise update of a mapping (Solidity `m[k] = v`). -/
def setAt {α : Type} (f : Nat → α) (k : Nat) (v : α) : Nat → α :=
  fun x => if x = k then v else f x

/-- Full contract storage. -/
structure Arena where
  matchCounter : Nat
  matchesMap : Nat → Match
  playerStats : Nat → PlayerStats
  playerActiveMatch : Nat → Nat
  pendingMatches : List Nat
  events : List Event

/-- Storage right after the constructor ran: `matchCounter = 1`,
everything else zero-initialised. -/
def initialArena : Arena where
  matchCounter := 1
  matchesMap := fun _ => emptyMatch
  playerStats := fun _ => {}
  playerActiveMatch := fun _ => 0
  pendingMatches := []
  events := []

/-- Model of `_removePendingMatch`: scan for the first occurrence of `matchId`,
overwrite it with the last element, pop the last element (swap-remove);
no occurrence means no change. -/
def removePendingMatch (pending : List Nat) (matchId : Nat) : List Nat :=
  match pending.findIdx? (fun x => x == matchId) with
  | some i => (pending.set i (pending.getLastD 0)).dropLast
  | none => pending

/-- Model of `createChallenge`: create a match in `Waiting` state, returning the
fresh match id. -/
def createChallenge (sender timestamp : Nat) (s : Arena) :
    Except ContractError (Arena × Nat) :=
  if s.playerActiveMatch sender ≠ 0 then
    .error .AlreadyInMatch
  else
    let matchId := s.matchCounter
    let newMatch :=
      { s.matchesMap matchId with
        matchId := matchId
        player1 := sender
        state := MatchState.Waiting
        createdAt := timestamp }
    .ok ({ s with
            matchCounter := s.matchCounter + 1
            matchesMap := setAt s.matchesMap matchId newMatch
            playerActiveMatch := setAt s.playerActiveMatch sender matchId
            pendingMatches := s.pendingMatches ++ [matchId]
            events := s.events ++ [Event.MatchCreated matchId sender] },
          matchId)

/-- Model of `acceptChallenge`: join an existing match as player2. -/
def acceptChallenge (sender matchId : Nat) (s : Arena) :
    Except ContractError Arena :=
  if matchId = 0 ∨ matchId ≥ s.matchCounter then
    .error .InvalidMatchId
  else
    let gameMatch := s.matchesMap matchId
    if gameMatch.state ≠ MatchState.Waiting then
      .error .MatchNotWaiting
    else if s.playerActiveMatch sender ≠ 0 then
      .error .AlreadyInMatch
    else if gameMatch.player1 = sender then
      .error .UnauthorizedPlayer
    else
      .ok { s with
            matchesMap := setAt s.matchesMap matchId { gameMatch with player2 := sender }
            playerActiveMatch := setAt s.playerActiveMatch sender matchId
            pendingMatches := removePendingMatch s.pendingMatches matchId
            events := s.events ++ [Event.MatchJoined matchId sender] }

/-- Model of `cancelMatch`: only player1, only while the match state is `Waiting`. -/
def cancelMatch (sender matchId : Nat) (s : Arena) :
    Except ContractError Arena :=
  let gameMatch := s.matchesMap matchId
  if gameMatch.player1 ≠ sender then
    .error .UnauthorizedPlayer
  else if gameMatch.state ≠ MatchState.Waiting then
    .error .MatchNotWaiting
  else
    .ok { s with
          matchesMap := setAt s.matchesMap matchId { gameMatch with state := MatchState.Cancelled }
          playerActiveMatch := setAt s.playerActiveMatch sender 0
          pendingMatches := removePendingMatch s.pendingMatches matchId
          events := s.events ++ [Event.MatchCancelled matchId] }

/-- Model of `submitMove`: store the (modelled) encrypted move in the caller's slot
and set the committed flag; when both slots are committed the state moves
to `BothCommitted`. -/
def submitMove (sender matchId moveVal : Nat) (s : Arena) :
    Except ContractError Arena :=
  let gameMatch := s.matchesMap matchId
  let isPlayer1 := gameMatch.player1 == sender
  let isPlayer2 := gameMatch.player2 == sender
  if !isPlayer1 && !isPlayer2 then
    .error .UnauthorizedPlayer
  else if isPlayer1 && gameMatch.player1Committed then
    .error .MoveAlreadyCommitted
  else if isPlayer2 && gameMatch.player2Committed then
    .error .MoveAlreadyCommitted
  else
    let committed :=
      if isPlayer1 then
        { gameMatch with move1 := moveVal, player1Committed := true }
      else
        { gameMatch with move2 := moveVal, player2Committed := true }
    let final :=
      if committed.player1Committed && committed.player2Committed then
        { committed with state := MatchState.BothCommitted }
      else
        committed
    .ok { s with
          matchesMap := setAt s.matchesMap matchId final
          events := s.events ++ [Event.MoveCommitted matchId sender] }

/-- Cleartext model of `FHE.eq` on move handles. -/
def fheEq (a b : Nat) : Bool := a == b

/-- Cleartext model of `FHE.and`. -/
def fheAnd (a b : Bool) : Bool := a && b

/-- Cleartext model of `FHE.or`. -/
def fheOr (a b : Bool) : Bool := a || b

/-- Cleartext model of `FHE.select`. -/
def fheSelect (c : Bool) (a b : Nat) : Nat := if c then a else b

/-- The homomorphic result computation inside `_settleMatch`:
0 = draw, 1 = player1 wins, 2 = player2 wins. -/
def settleResult (move1 move2 : Nat) : Nat :=
  let isDraw := fheEq move1 move2
  let p1WinCase1 := fheAnd (fheEq move1 0) (fheEq move2 2)
  let p1WinCase2 := fheAnd (fheEq move1 1) (fheEq move2 0)
  let p1WinCase3 := fheAnd (fheEq move1 2) (fheEq move2 1)
  let p1Wins := fheOr (fheOr p1WinCase1 p1WinCase2) p1WinCase3
  fheSelect isDraw 0 (fheSelect p1Wins 1 2)

/-- Model of `_updateStats`: increment `totalMatches` for both players (the result
argument is carried but, as in the source, not used for win/loss/draw
attribution). -/
def updateStats (matchId : Nat) (result : Nat) (s : Arena) : Arena :=
  let gameMatch := s.matchesMap matchId
  let stats1 := s.playerStats gameMatch.player1
  let newStats1 := { stats1 with totalMatches := stats1.totalMatches + 1 }
  let s1 := { s with playerStats := setAt s.playerStats gameMatch.player1 newStats1 }
  let stats2 := s1.playerStats gameMatch.player2
  let newStats2 := { stats2 with totalMatches := stats2.totalMatches + 1 }
  { s1 with playerStats := setAt s1.playerStats gameMatch.player2 newStats2 }

/-- Model of `_settleMatch`: compute the encrypted result, set state `Revealed`,
clear both active-match entries, emit the placeholder event, update
stats. -/
def settleMatch (matchId : Nat) (s : Arena) : Arena :=
  let gameMatch := s.matchesMap matchId
  let result := settleResult gameMatch.move1 gameMatch.move2
  let s1 := { s with
    matchesMap := setAt s.matchesMap matchId { gameMatch with state := MatchState.Revealed }
    playerActiveMatch :=
      setAt (setAt s.playerActiveMatch gameMatch.player1 0) gameMatch.player2 0
    events := s.events ++ [Event.MatchRevealed matchId 0 0] }
  updateStats matchId result s1

/-- Model of `requestReveal`: settle a `BothCommitted` match on a participant's
request. -/
def requestReveal (sender matchId : Nat) (s : Arena) :
    Except ContractError Arena :=
  let gameMatch := s.matchesMap matchId
  if gameMatch.state ≠ MatchState.BothCommitted then
    .error .MatchNotReady
  else if sender ≠ gameMatch.player1 ∧ sender ≠ gameMatch.player2 then
    .error .UnauthorizedPlayer
  else
    .ok (settleMatch matchId s)

/-- Model of the `lockMove` view function. -/
def lockMove (matchId : Nat) (s : Arena) : Bool :=
  (s.matchesMap matchId).state == MatchState.BothCommitted

/-- One external transaction against the contract. -/
inductive Op where
  | create (sender timestamp : Nat)
  | join (sender matchId : Nat)
  | cancel (sender matchId : Nat)
  | submit (sender matchId moveVal : Nat)
  | reveal (sender matchId : Nat)
deriving DecidableEq, Repr

/-- The sender of a transaction. -/
def Op.sender : Op → Nat
  | .create s _ => s
  | .join s _ => s
  | .cancel s _ => s
  | .submit s _ _ => s
  | .reveal s _ => s

/-- Apply a transaction; a revert leaves the storage unchanged. -/
def applyOp (s : Arena) : Op → Arena
  | .create sender t =>
    match createChallenge sender t s with
    | .ok (s2, _) => s2
    | .error _ => s
  | .join sender matchId =>
    match acceptChallenge sender matchId s with
    | .ok s2 => s2
    | .error _ => s
  | .cancel sender matchId =>
    match cancelMatch sender matchId s with
    | .ok s2 => s2
    | .error _ => s
  | .submit sender matchId mv =>
    match submitMove sender matchId mv s with
    | .ok s2 => s2
    | .error _ => s
  | .reveal sender matchId =>
    match requestReveal sender matchId s with
    | .ok s2 => s2
    | .error _ => s

/-- Run a sequence of transactions from a starting storage. -/
def runTrace (s : Arena) (ops : List Op) : Arena :=
  ops.foldl applyOp s

/-- Contract storages reachable from deployment by transactions whose
sender is not the zero address. -/
inductive Reachable : Arena → Prop where
  | init : Reachable initialArena
  | step (s : Arena) (op : Op) : Reachable s → op.sender ≠ 0 →
      Reachable (applyOp s op)

/-- Whether a call succeeded (did not revert). -/
def succeeds (r : Except ContractError Arena) : Bool :=
  match r with
  | .ok _ => true
  | .error _ => false

/-! ### Concrete reachable storages used by individual claims -/

/-- Match 1 created by player 1 and joined by player 2. -/
def joinedState : Arena := runTrace initialArena [Op.create 1 0, Op.join 2 1]

/-- Match 1 created by player 1, joined by player 2, then cancelled by
player 1 (the cancel succeeds because joining never leaves `Waiting`). -/
def cancelledAfterJoinState : Arena :=
  runTrace initialArena [Op.create 1 0, Op.join 2 1, Op.cancel 1 1]

/-- Match 1 created by player 1 who also committed a move, joined by
player 2, then cancelled by player 1. -/
def cancelledCommittedState : Arena :=
  runTrace initialArena [Op.create 1 0, Op.submit 1 1 0, Op.join 2 1, Op.cancel 1 1]

/-- Match 1 created, joined and cancelled; used to exercise `submitMove`
on a `Cancelled` match. -/
def cancelledStateForSubmit : Arena :=
  runTrace initialArena [Op.create 1 0, Op.join 2 1, Op.cancel 1 1]

/-- Two pending matches created by players 1 and 2. -/
def twoPendingState : Arena := runTrace initialArena [Op.create 1 0, Op.create 2 0]

/-- Match 1 created by player 1, joined by player 2, both moves
committed (Rock by the initiator, Scissors by the opponent). -/
def bothCommittedState : Arena :=
  runTrace initialArena [Op.create 1 0, Op.join 2 1, Op.submit 1 1 0, Op.submit 2 1 2]

/-! ### Helper lemmas about mapping updates -/

theorem setAt_same {α : Type} (f : Nat → α) (k : Nat) (v : α) : setAt f k v k = v := by
  simp [setAt]

theorem setAt_other {α : Type} (f : Nat → α) (k : Nat) (v : α) {x : Nat} (h : x ≠ k) :
    setAt f k v x = f x := by
  simp [setAt, h]

/-! ### The swap-remove helper `_removePendingMatch` -/

theorem removePendingMatch_perm (l : List Nat) (a : Nat) (h : l.Nodup) :
    (removePendingMatch l a).Perm (l.erase a) := by
  rcases hf : l.findIdx? (fun x => x == a) with - | i
  · have ha : a ∉ l := by
      rw [List.findIdx?_eq_none_iff] at hf
      intro hm
      simpa using hf a hm
    simp only [removePendingMatch, hf]
    rw [List.erase_of_not_mem ha]
  · simp only [removePendingMatch, hf]
    rw [List.findIdx?_eq_some_iff_getElem] at hf
    obtain ⟨hlen, hpi, -⟩ := hf
    have hval : l[i] = a := by simpa using hpi
    have hAlen : (l.take i).length = i := by
      simp [List.length_take, Nat.le_of_lt hlen]
    have hdecomp : l = l.take i ++ a :: l.drop (i + 1) := by
      conv_lhs => rw [← List.take_append_drop i l]
      rw [← List.getElem_cons_drop l i hlen, hval]
    have hnotA : a ∉ l.take i := by
      intro hmem
      rw [hdecomp, List.nodup_append] at h
      exact h.2.2 hmem (List.mem_cons_self a _)
    by_cases hD : l.drop (i + 1) = []
    · -- the found occurrence is the last element
      have hl : l = l.take i ++ [a] := by
        conv_lhs => rw [hdecomp, hD]
      have hlast : l.getLastD 0 = a := by
        rw [List.getLastD_eq_getLast?, hl, List.getLast?_concat]
        rfl
      have hset : l.set i (l.getLastD 0) = l.take i ++ [a] := by
        rw [hlast]
        conv_lhs => rw [hl]
        rw [List.set_append, if_neg (by rw [hAlen]; exact Nat.lt_irrefl i),
          hAlen, Nat.sub_self, List.set_cons_zero]
      have herase : l.erase a = l.take i := by
        conv_lhs => rw [hl]
        rw [List.erase_append_right _ hnotA, List.erase_cons_head]
        simp
      rw [hset, List.dropLast_concat, herase]
    · -- the found occurrence is strictly before the last element
      have hx : l.drop (i + 1) = (l.drop (i + 1)).dropLast ++ [(l.drop (i + 1)).getLast hD] := by
        rw [List.dropLast_append_getLast]
      set x := (l.drop (i + 1)).getLast hD with hxdef
      set D0 := (l.drop (i + 1)).dropLast with hD0def
      have hl : l = (l.take i ++ a :: D0) ++ [x] := by
        conv_lhs => rw [hdecomp, hx]
        simp
      have hlast : l.getLastD 0 = x := by
        rw [List.getLastD_eq_getLast?, hl, List.getLast?_concat]
        rfl
      have hset : l.set i (l.getLastD 0) = (l.take i ++ x :: D0) ++ [x] := by
        rw [hlast]
        conv_lhs => rw [hl]
        have hi : i < (l.take i ++ a :: D0).length := by
          simp [hAlen]
        rw [List.set_append, if_pos hi, List.set_append,
          if_neg (by rw [hAlen]; exact Nat.lt_irrefl i),
          hAlen, Nat.sub_self, List.set_cons_zero]
      have herase : l.erase a = l.take i ++ (D0 ++ [x]) := by
        conv_lhs => rw [hl]
        rw [List.append_assoc, List.cons_append,
          List.erase_append_right _ hnotA, List.erase_cons_head]
      rw [hset, List.dropLast_concat, herase]
      exact List.Perm.append_left _ ((List.perm_append_singleton x D0).symm)

theorem removePendingMatch_nodup (l : List Nat) (a : Nat) (h : l.Nodup) :
    (removePendingMatch l a).Nodup :=
  (removePendingMatch_perm l a h).nodup_iff.mpr (h.erase a)

theorem mem_removePendingMatch (l : List Nat) (a x : Nat) (h : l.Nodup) :
    x ∈ removePendingMatch l a ↔ (x ∈ l ∧ x ≠ a) := by
  rw [(removePendingMatch_perm l a h).mem_iff, h.mem_erase_iff]
  tauto

/-! ### Reachability invariant -/

/-- Invariant maintained by every transaction: the pending list mirrors
exactly the waiting-and-unjoined matches and has no duplicates;
unallocated ids hold the zero struct; a set opponent differs from the
initiator; a committed opponent slot implies a set opponent; a
`BothCommitted` match has a committed opponent slot. -/
def Inv (s : Arena) : Prop :=
  1 ≤ s.matchCounter ∧
  s.pendingMatches.Nodup ∧
  (∀ id, id ∈ s.pendingMatches ↔
    ((s.matchesMap id).state = MatchState.Waiting ∧ (s.matchesMap id).player2 = 0)) ∧
  (∀ id, id = 0 ∨ s.matchCounter ≤ id → s.matchesMap id = emptyMatch) ∧
  (∀ id, (s.matchesMap id).player2 ≠ 0 →
    (s.matchesMap id).player1 ≠ (s.matchesMap id).player2) ∧
  (∀ id, (s.matchesMap id).player2Committed = true → (s.matchesMap id).player2 ≠ 0) ∧
  (∀ id, (s.matchesMap id).state = MatchState.BothCommitted →
    (s.matchesMap id).player2Committed = true)

theorem inv_create (s : Arena) (sender t : Nat) (hs : sender ≠ 0) (h : Inv s) :
    Inv (applyOp s (Op.create sender t)) := by
  obtain ⟨h1, h2, h3, h4, h5, h6, h7⟩ := h
  by_cases hc : s.playerActiveMatch sender = 0
  · have hdef : s.matchesMap s.matchCounter = emptyMatch := h4 _ (Or.inr le_rfl)
    have hmm : (applyOp s (Op.create sender t)).matchesMap =
        setAt s.matchesMap s.matchCounter
          { emptyMatch with
            matchId := s.matchCounter
            player1 := sender
            state := MatchState.Waiting
            createdAt := t } := by
      simp [applyOp, createChallenge, hc, hdef]
    have hpm : (applyOp s (Op.create sender t)).pendingMatches =
        s.pendingMatches ++ [s.matchCounter] := by
      simp [applyOp, createChallenge, hc]
    have hmc : (applyOp s (Op.create sender t)).matchCounter = s.matchCounter + 1 := by
      simp [applyOp, createChallenge, hc]
    have hnotmem : s.matchCounter ∉ s.pendingMatches := by
      intro hm
      have hw := ((h3 _).mp hm).1
      rw [hdef] at hw
      simp [emptyMatch] at hw
    refine ⟨by rw [hmc]; omega, ?_, ?_, ?_, ?_, ?_, ?_⟩
    · rw [hpm, List.nodup_append]
      refine ⟨h2, List.nodup_singleton _, ?_⟩
      intro b hb hbc
      rw [List.mem_singleton] at hbc
      exact hnotmem (hbc ▸ hb)
    · intro id
      rw [hpm, hmm]
      by_cases hid : id = s.matchCounter
      · subst hid
        simp [setAt_same, List.mem_append, hnotmem, emptyMatch]
      · simp only [List.mem_append, List.mem_singleton, hid, or_false,
          setAt_other _ _ _ hid]
        exact h3 id
    · intro id hout
      rw [hmc] at hout
      rw [hmm]
      have hid : id ≠ s.matchCounter := by omega
      rw [setAt_other _ _ _ hid]
      exact h4 id (by omega)
    · intro id
      rw [hmm]
      by_cases hid : id = s.matchCounter
      · subst hid
        rw [setAt_same]
        intro hp2
        simp [emptyMatch] at hp2
      · rw [setAt_other _ _ _ hid]
        exact h5 id
    · intro id
      rw [hmm]
      by_cases hid : id = s.matchCounter
      · subst hid
        rw [setAt_same]
        intro hp2c
        simp [emptyMatch] at hp2c
      · rw [setAt_other _ _ _ hid]
        exact h6 id
    · intro id
      rw [hmm]
      by_cases hid : id = s.matchCounter
      · subst hid
        rw [setAt_same]
        intro hst
        simp [emptyMatch] at hst
      · rw [setAt_other _ _ _ hid]
        exact h7 id
  · have happ : applyOp s (Op.create sender t) = s := by
      simp [applyOp, createChallenge, hc]
    rw [happ]
    exact ⟨h1, h2, h3, h4, h5, h6, h7⟩

theorem inv_join (s : Arena) (sender matchId : Nat) (hs : sender ≠ 0) (h : Inv s) :
    Inv (applyOp s (Op.join sender matchId)) := by
  obtain ⟨h1, h2, h3, h4, h5, h6, h7⟩ := h
  by_cases hrange : matchId = 0 ∨ matchId ≥ s.matchCounter
  · have happ : applyOp s (Op.join sender matchId) = s := by
      simp [applyOp, acceptChallenge, hrange]
    rw [happ]
    exact ⟨h1, h2, h3, h4, h5, h6, h7⟩
  by_cases hw : (s.matchesMap matchId).state = MatchState.Waiting
  case neg =>
    have happ : applyOp s (Op.join sender matchId) = s := by
      simp [applyOp, acceptChallenge, hrange, hw]
    rw [happ]
    exact ⟨h1, h2, h3, h4, h5, h6, h7⟩
  by_cases hac : s.playerActiveMatch sender = 0
  case neg =>
    have happ : applyOp s (Op.join sender matchId) = s := by
      simp [applyOp, acceptChallenge, hrange, hw, hac]
    rw [happ]
    exact ⟨h1, h2, h3, h4, h5, h6, h7⟩
  by_cases hp1 : (s.matchesMap matchId).player1 = sender
  case pos =>
    have happ : applyOp s (Op.join sender matchId) = s := by
      simp [applyOp, acceptChallenge, hrange, hw, hac, hp1]
    rw [happ]
    exact ⟨h1, h2, h3, h4, h5, h6, h7⟩
  -- success path
  have hmm : (applyOp s (Op.join sender matchId)).matchesMap =
      setAt s.matchesMap matchId { s.matchesMap matchId with player2 := sender } := by
    simp [applyOp, acceptChallenge, hrange, hw, hac, hp1]
  have hpm : (applyOp s (Op.join sender matchId)).pendingMatches =
      removePendingMatch s.pendingMatches matchId := by
    simp [applyOp, acceptChallenge, hrange, hw, hac, hp1]
  have hmc : (applyOp s (Op.join sender matchId)).matchCounter = s.matchCounter := by
    simp [applyOp, acceptChallenge, hrange, hw, hac, hp1]
  push_neg at hrange
  refine ⟨by rw [hmc]; exact h1, ?_, ?_, ?_, ?_, ?_, ?_⟩
  · rw [hpm]
    exact removePendingMatch_nodup _ _ h2
  · intro id
    rw [hpm, hmm]
    by_cases hid : id = matchId
    · subst hid
      rw [setAt_same, mem_removePendingMatch _ _ _ h2]
      simp [hs]
    · rw [setAt_other _ _ _ hid, mem_removePendingMatch _ _ _ h2]
      constructor
      · intro hm
        exact (h3 id).mp hm.1
      · intro hrhs
        exact ⟨(h3 id).mpr hrhs, hid⟩
  · intro id hout
    rw [hmc] at hout
    rw [hmm]
    have hid : id ≠ matchId := by omega
    rw [setAt_other _ _ _ hid]
    exact h4 id hout
  · intro id
    rw [hmm]
    by_cases hid : id = matchId
    · subst hid
      rw [setAt_same]
      intro _
      simpa using hp1
    · rw [setAt_other _ _ _ hid]
      exact h5 id
  · intro id
    rw [hmm]
    by_cases hid : id = matchId
    · subst hid
      rw [setAt_same]
      intro _
      simpa using hs
    · rw [setAt_other _ _ _ hid]
      exact h6 id
  · intro id
    rw [hmm]
    by_cases hid : id = matchId
    · subst hid
      rw [setAt_same]
      intro hst
      simp [hw] at hst
    · rw [setAt_other _ _ _ hid]
      exact h7 id

theorem inv_cancel (s : Arena) (sender matchId : Nat) (hs : sender ≠ 0) (h : Inv s) :
    Inv (applyOp s (Op.cancel sender matchId)) := by
  obtain ⟨h1, h2, h3, h4, h5, h6, h7⟩ := h
  by_cases hp1 : (s.matchesMap matchId).player1 = sender
  case neg =>
    have happ : applyOp s (Op.cancel sender matchId) = s := by
      simp [applyOp, cancelMatch, hp1]
    rw [happ]
    exact ⟨h1, h2, h3, h4, h5, h6, h7⟩
  by_cases hw : (s.matchesMap matchId).state = MatchState.Waiting
  case neg =>
    have happ : applyOp s (Op.cancel sender matchId) = s := by
      simp [applyOp, cancelMatch, hp1, hw]
    rw [happ]
    exact ⟨h1, h2, h3, h4, h5, h6, h7⟩
  -- success path; first note the match must be an allocated one
  have hrange : ¬(matchId = 0 ∨ s.matchCounter ≤ matchId) := by
    intro hout
    have hdef := h4 matchId hout
    rw [hdef] at hp1
    simp [emptyMatch] at hp1
    exact hs hp1.symm
  have hmm : (applyOp s (Op.cancel sender matchId)).matchesMap =
      setAt s.matchesMap matchId
        { s.matchesMap matchId with state := MatchState.Cancelled } := by
    simp [applyOp, cancelMatch, hp1, hw]
  have hpm : (applyOp s (Op.cancel sender matchId)).pendingMatches =
      removePendingMatch s.pendingMatches matchId := by
    simp [applyOp, cancelMatch, hp1, hw]
  have hmc : (applyOp s (Op.cancel sender matchId)).matchCounter = s.matchCounter := by
    simp [applyOp, cancelMatch, hp1, hw]
  push_neg at hrange
  refine ⟨by rw [hmc]; exact h1, ?_, ?_, ?_, ?_, ?_, ?_⟩
  · rw [hpm]
    exact removePendingMatch_nodup _ _ h2
  · intro id
    rw [hpm, hmm]
    by_cases hid : id = matchId
    · subst hid
      rw [setAt_same, mem_removePendingMatch _ _ _ h2]
      simp
    · rw [setAt_other _ _ _ hid, mem_removePendingMatch _ _ _ h2]
      constructor
      · intro hm
        exact (h3 id).mp hm.1
      · intro hrhs
        exact ⟨(h3 id).mpr hrhs, hid⟩
  · intro id hout
    rw [hmc] at hout
    rw [hmm]
    have hid : id ≠ matchId := by omega
    rw [setAt_other _ _ _ hid]
    exact h4 id hout
  · intro id
    rw [hmm]
    by_cases hid : id = matchId
    · subst hid
      rw [setAt_same]
      intro hp2
      simp only at hp2 ⊢
      exact h5 id (by simpa using hp2)
    · rw [setAt_other _ _ _ hid]
      exact h5 id
  · intro id
    rw [hmm]
    by_cases hid : id = matchId
    · subst hid
      rw [setAt_same]
      intro hp2c
      exact h6 id (by simpa using hp2c)
    · rw [setAt_other _ _ _ hid]
      exact h6 id
  · intro id
    rw [hmm]
    by_cases hid : id = matchId
    · subst hid
      rw [setAt_same]
      intro hst
      simp at hst
    · rw [setAt_other _ _ _ hid]
      exact h7 id

theorem inv_submit (s : Arena) (sender matchId mv : Nat) (hs : sender ≠ 0) (h : Inv s) :
    Inv (applyOp s (Op.submit sender matchId mv)) := by
  obtain ⟨h1, h2, h3, h4, h5, h6, h7⟩ := h
  by_cases hip1 : (s.matchesMap matchId).player1 = sender
  · -- caller occupies the initiator slot
    have hrange : ¬(matchId = 0 ∨ s.matchCounter ≤ matchId) := by
      intro hout
      have hdef := h4 matchId hout
      rw [hdef] at hip1
      simp [emptyMatch] at hip1
      exact hs hip1.symm
    by_cases hp1c : (s.matchesMap matchId).player1Committed = true
    · have happ : applyOp s (Op.submit sender matchId mv) = s := by
        simp [applyOp, submitMove, hip1, hp1c]
      rw [happ]
      exact ⟨h1, h2, h3, h4, h5, h6, h7⟩
    · have hp1c' : (s.matchesMap matchId).player1Committed = false := by
        cases hcc : (s.matchesMap matchId).player1Committed
        · rfl
        · exact absurd hcc hp1c
      by_cases hp2c : (s.matchesMap matchId).player2Committed = true
      · by_cases hip2 : (s.matchesMap matchId).player2 = sender
        · have happ : applyOp s (Op.submit sender matchId mv) = s := by
            simp [applyOp, submitMove, hip1, hip2, hp1c', hp2c]
          rw [happ]
          exact ⟨h1, h2, h3, h4, h5, h6, h7⟩
        · -- initiator commits second: transition to BothCommitted
          have hmm : (applyOp s (Op.submit sender matchId mv)).matchesMap =
              setAt s.matchesMap matchId
                { s.matchesMap matchId with
                  move1 := mv
                  player1Committed := true
                  state := MatchState.BothCommitted } := by
            simp [applyOp, submitMove, hip1, hip2, hp1c', hp2c]
          have hpm : (applyOp s (Op.submit sender matchId mv)).pendingMatches =
              s.pendingMatches := by
            simp [applyOp, submitMove, hip1, hip2, hp1c', hp2c]
          have hmc : (applyOp s (Op.submit sender matchId mv)).matchCounter =
              s.matchCounter := by
            simp [applyOp, submitMove, hip1, hip2, hp1c', hp2c]
          refine ⟨by rw [hmc]; exact h1, by rw [hpm]; exact h2, ?_, ?_, ?_, ?_, ?_⟩
          · intro id
            rw [hpm, hmm]
            by_cases hid : id = matchId
            · subst hid
              rw [setAt_same, h3 id]
              simp [h6 id hp2c]
            · rw [setAt_other _ _ _ hid]
              exact h3 id
          · intro id hout
            rw [hmc] at hout
            rw [hmm, setAt_other _ _ _ (by omega : id ≠ matchId)]
            exact h4 id hout
          · intro id
            rw [hmm]
            by_cases hid : id = matchId
            · subst hid
              rw [setAt_same]
              intro hp2
              simp only at hp2 ⊢
              exact h5 id (by simpa using hp2)
            · rw [setAt_other _ _ _ hid]
              exact h5 id
          · intro id
            rw [hmm]
            by_cases hid : id = matchId
            · subst hid
              rw [setAt_same]
              intro _
              simpa using h6 id hp2c
            · rw [setAt_other _ _ _ hid]
              exact h6 id
          · intro id
            rw [hmm]
            by_cases hid : id = matchId
            · subst hid
              rw [setAt_same]
              intro _
              simpa using hp2c
            · rw [setAt_other _ _ _ hid]
              exact h7 id
      · -- initiator commits, opponent slot not committed: no transition
        have hp2c' : (s.matchesMap matchId).player2Committed = false := by
          cases hcc : (s.matchesMap matchId).player2Committed
          · rfl
          · exact absurd hcc hp2c
        have hmm : (applyOp s (Op.submit sender matchId mv)).matchesMap =
            setAt s.matchesMap matchId
              { s.matchesMap matchId with
                move1 := mv
                player1Committed := true } := by
          simp [applyOp, submitMove, hip1, hp1c', hp2c']
        have hpm : (applyOp s (Op.submit sender matchId mv)).pendingMatches =
            s.pendingMatches := by
          simp [applyOp, submitMove, hip1, hp1c', hp2c']
        have hmc : (applyOp s (Op.submit sender matchId mv)).matchCounter =
            s.matchCounter := by
          simp [applyOp, submitMove, hip1, hp1c', hp2c']
        refine ⟨by rw [hmc]; exact h1, by rw [hpm]; exact h2, ?_, ?_, ?_, ?_, ?_⟩
        · intro id
          rw [hpm, hmm]
          by_cases hid : id = matchId
          · subst hid
            rw [setAt_same, h3 id]
          · rw [setAt_other _ _ _ hid]
            exact h3 id
        · intro id hout
          rw [hmc] at hout
          rw [hmm, setAt_other _ _ _ (by omega : id ≠ matchId)]
          exact h4 id hout
        · intro id
          rw [hmm]
          by_cases hid : id = matchId
          · subst hid
            rw [setAt_same]
            intro hp2
            simp only at hp2 ⊢
            exact h5 id (by simpa using hp2)
          · rw [setAt_other _ _ _ hid]
            exact h5 id
        · intro id
          rw [hmm]
          by_cases hid : id = matchId
          · subst hid
            rw [setAt_same]
            intro hp2cnew
            simp [hp2c'] at hp2cnew
          · rw [setAt_other _ _ _ hid]
            exact h6 id
        · intro id
          rw [hmm]
          by_cases hid : id = matchId
          · subst hid
            rw [setAt_same]
            intro hst
            simp only at hst
            have := h7 id (by simpa using hst)
            rw [hp2c'] at this
            cases this
          · rw [setAt_other _ _ _ hid]
            exact h7 id
  · by_cases hip2 : (s.matchesMap matchId).player2 = sender
    · -- caller occupies the opponent slot
      have hrange : ¬(matchId = 0 ∨ s.matchCounter ≤ matchId) := by
        intro hout
        have hdef := h4 matchId hout
        rw [hdef] at hip2
        simp [emptyMatch] at hip2
        exact hs hip2.symm
      by_cases hp2c : (s.matchesMap matchId).player2Committed = true
      · have happ : applyOp s (Op.submit sender matchId mv) = s := by
          simp [applyOp, submitMove, hip1, hip2, hp2c]
        rw [happ]
        exact ⟨h1, h2, h3, h4, h5, h6, h7⟩
      · have hp2c' : (s.matchesMap matchId).player2Committed = false := by
          cases hcc : (s.matchesMap matchId).player2Committed
          · rfl
          · exact absurd hcc hp2c
        have hLHSfalse : matchId ∉ s.pendingMatches := by
          intro hm
          have := ((h3 matchId).mp hm).2
          rw [hip2] at this
          exact hs this
        by_cases hp1c : (s.matchesMap matchId).player1Committed = true
        · -- opponent commits second: transition to BothCommitted
          have hmm : (applyOp s (Op.submit sender matchId mv)).matchesMap =
              setAt s.matchesMap matchId
                { s.matchesMap matchId with
                  move2 := mv
                  player2Committed := true
                  state := MatchState.BothCommitted } := by
            simp [applyOp, submitMove, hip1, hip2, hp1c, hp2c']
          have hpm : (applyOp s (Op.submit sender matchId mv)).pendingMatches =
              s.pendingMatches := by
            simp [applyOp, submitMove, hip1, hip2, hp1c, hp2c']
          have hmc : (applyOp s (Op.submit sender matchId mv)).matchCounter =
              s.matchCounter := by
            simp [applyOp, submitMove, hip1, hip2, hp1c, hp2c']
          refine ⟨by rw [hmc]; exact h1, by rw [hpm]; exact h2, ?_, ?_, ?_, ?_, ?_⟩
          · intro id
            rw [hpm, hmm]
            by_cases hid : id = matchId
            · subst hid
              rw [setAt_same]
              simp [hLHSfalse]
            · rw [setAt_other _ _ _ hid]
              exact h3 id
          · intro id hout
            rw [hmc] at hout
            rw [hmm, setAt_other _ _ _ (by omega : id ≠ matchId)]
            exact h4 id hout
          · intro id
            rw [hmm]
            by_cases hid : id = matchId
            · subst hid
              rw [setAt_same]
              intro hp2
              simp only at hp2 ⊢
              exact h5 id (by simpa using hp2)
            · rw [setAt_other _ _ _ hid]
              exact h5 id
          · intro id
            rw [hmm]
            by_cases hid : id = matchId
            · subst hid
              rw [setAt_same]
              intro _
              simp [hip2]
              exact fun hz => hs hz
            · rw [setAt_other _ _ _ hid]
              exact h6 id
          · intro id
            rw [hmm]
            by_cases hid : id = matchId
            · subst hid
              rw [setAt_same]
              intro _
              rfl
            · rw [setAt_other _ _ _ hid]
              exact h7 id
        · -- opponent commits first: no transition
          have hp1c' : (s.matchesMap matchId).player1Committed = false := by
            cases hcc : (s.matchesMap matchId).player1Committed
            · rfl
            · exact absurd hcc hp1c
          have hmm : (applyOp s (Op.submit sender matchId mv)).matchesMap =
              setAt s.matchesMap matchId
                { s.matchesMap matchId with
                  move2 := mv
                  player2Committed := true } := by
            simp [applyOp, submitMove, hip1, hip2, hp1c', hp2c']
          have hpm : (applyOp s (Op.submit sender matchId mv)).pendingMatches =
              s.pendingMatches := by
            simp [applyOp, submitMove, hip1, hip2, hp1c', hp2c']
          have hmc : (applyOp s (Op.submit sender matchId mv)).matchCounter =
              s.matchCounter := by
            simp [applyOp, submitMove, hip1, hip2, hp1c', hp2c']
          refine ⟨by rw [hmc]; exact h1, by rw [hpm]; exact h2, ?_, ?_, ?_, ?_, ?_⟩
          · intro id
            rw [hpm, hmm]
            by_cases hid : id = matchId
            · subst hid
              rw [setAt_same]
              simp [hLHSfalse, hip2]
              exact fun _ hz => hs hz
            · rw [setAt_other _ _ _ hid]
              exact h3 id
          · intro id hout
            rw [hmc] at hout
            rw [hmm, setAt_other _ _ _ (by omega : id ≠ matchId)]
            exact h4 id hout
          · intro id
            rw [hmm]
            by_cases hid : id = matchId
            · subst hid
              rw [setAt_same]
              intro hp2
              simp only at hp2 ⊢
              exact h5 id (by simpa using hp2)
            · rw [setAt_other _ _ _ hid]
              exact h5 id
          · intro id
            rw [hmm]
            by_cases hid : id = matchId
            · subst hid
              rw [setAt_same]
              intro _
              simp [hip2]
              exact fun hz => hs hz
            · rw [setAt_other _ _ _ hid]
              exact h6 id
          · intro id
            rw [hmm]
            by_cases hid : id = matchId
            · subst hid
              rw [setAt_same]
              intro _
              rfl
            · rw [setAt_other _ _ _ hid]
              exact h7 id
    · -- caller occupies no slot
      have happ : applyOp s (Op.submit sender matchId mv) = s := by
        simp [applyOp, submitMove, hip1, hip2]
      rw [happ]
      exact ⟨h1, h2, h3, h4, h5, h6, h7⟩

theorem inv_reveal (s : Arena) (sender matchId : Nat) (hs : sender ≠ 0) (h : Inv s) :
    Inv (applyOp s (Op.reveal sender matchId)) := by
  obtain ⟨h1, h2, h3, h4, h5, h6, h7⟩ := h
  by_cases hbc : (s.matchesMap matchId).state = MatchState.BothCommitted
  case neg =>
    have happ : applyOp s (Op.reveal sender matchId) = s := by
      simp [applyOp, requestReveal, hbc]
    rw [happ]
    exact ⟨h1, h2, h3, h4, h5, h6, h7⟩
  by_cases hauth : sender ≠ (s.matchesMap matchId).player1 ∧
      sender ≠ (s.matchesMap matchId).player2
  case pos =>
    have happ : applyOp s (Op.reveal sender matchId) = s := by
      simp [applyOp, requestReveal, hbc, hauth]
    rw [happ]
    exact ⟨h1, h2, h3, h4, h5, h6, h7⟩
  -- success path
  have hrange : ¬(matchId = 0 ∨ s.matchCounter ≤ matchId) := by
    intro hout
    have hdef := h4 matchId hout
    rw [hdef] at hbc
    simp [emptyMatch] at hbc
  have hmm : (applyOp s (Op.reveal sender matchId)).matchesMap =
      setAt s.matchesMap matchId
        { s.matchesMap matchId with state := MatchState.Revealed } := by
    simp [applyOp, requestReveal, settleMatch, updateStats, hbc, hauth]
  have hpm : (applyOp s (Op.reveal sender matchId)).pendingMatches =
      s.pendingMatches := by
    simp [applyOp, requestReveal, settleMatch, updateStats, hbc, hauth]
  have hmc : (applyOp s (Op.reveal sender matchId)).matchCounter = s.matchCounter := by
    simp [applyOp, requestReveal, settleMatch, updateStats, hbc, hauth]
  refine ⟨by rw [hmc]; exact h1, by rw [hpm]; exact h2, ?_, ?_, ?_, ?_, ?_⟩
  · intro id
    rw [hpm, hmm]
    by_cases hid : id = matchId
    · subst hid
      rw [setAt_same, h3 id]
      simp [hbc]
    · rw [setAt_other _ _ _ hid]
      exact h3 id
  · intro id hout
    rw [hmc] at hout
    rw [hmm, setAt_other _ _ _ (by omega : id ≠ matchId)]
    exact h4 id hout
  · intro id
    rw [hmm]
    by_cases hid : id = matchId
    · subst hid
      rw [setAt_same]
      intro hp2
      simp only at hp2 ⊢
      exact h5 id (by simpa using hp2)
    · rw [setAt_other _ _ _ hid]
      exact h5 id
  · intro id
    rw [hmm]
    by_cases hid : id = matchId
    · subst hid
      rw [setAt_same]
      intro hp2c
      exact h6 id (by simpa using hp2c)
    · rw [setAt_other _ _ _ hid]
      exact h6 id
  · intro id
    rw [hmm]
    by_cases hid : id = matchId
    · subst hid
      rw [setAt_same]
      intro hst
      simp at hst
    · rw [setAt_other _ _ _ hid]
      exact h7 id

theorem inv_initial : Inv initialArena := by
  refine ⟨le_rfl, List.nodup_nil, ?_, ?_, ?_, ?_, ?_⟩
  · intro id
    simp [initialArena, emptyMatch]
  · intro id _
    rfl
  · intro id hp2
    simp [initialArena, emptyMatch] at hp2
  · intro id hp2c
    simp [initialArena, emptyMatch] at hp2c
  · intro id hst
    simp [initialArena, emptyMatch] at hst

/-- Every reachable storage satisfies the invariant. -/
theorem reachable_inv (s : Arena) (h : Reachable s) : Inv s := by
  induction h with
  | init => exact inv_initial
  | step s op hr hsend ih =>
    cases op with
    | create sender t => exact inv_create s sender t hsend ih
    | join sender matchId => exact inv_join s sender matchId hsend ih
    | cancel sender matchId => exact inv_cancel s sender matchId hsend ih
    | submit sender matchId mv => exact inv_submit s sender matchId mv hsend ih
    | reveal sender matchId => exact inv_reveal s sender matchId hsend ih

/-! ### Claim C4: totality and correctness of the settlement table -/

/-- C4: for every pair of cleartext move values in `{0,1,2} × {0,1,2}` the
settlement computation yields exactly one result in `{0,1,2}`: `0` (draw)
iff the moves are equal, `1` (initiator wins) iff the pair is `(0,2)`,
`(1,0)` or `(2,1)`, and `2` (opponent wins) in all remaining cases. -/
theorem settleResult_table (move1 move2 : Nat) (hm1 : move1 < 3) (hm2 : move2 < 3) :
    (settleResult move1 move2 = 0 ∨ settleResult move1 move2 = 1 ∨
      settleResult move1 move2 = 2) ∧
    (settleResult move1 move2 = 0 ↔ move1 = move2) ∧
    (settleResult move1 move2 = 1 ↔
      ((move1 = 0 ∧ move2 = 2) ∨ (move1 = 1 ∧ move2 = 0) ∨ (move1 = 2 ∧ move2 = 1))) ∧
    (settleResult move1 move2 = 2 ↔
      (move1 ≠ move2 ∧
        ¬((move1 = 0 ∧ move2 = 2) ∨ (move1 = 1 ∧ move2 = 0) ∨
          (move1 = 2 ∧ move2 = 1)))) := by
  interval_cases move1 <;> interval_cases move2 <;> decide

/-- Witness for C4 at the concrete pair Rock vs Scissors. -/
theorem settleResult_table_witness :
    (0 : Nat) < 3 ∧ (2 : Nat) < 3 ∧ settleResult 0 2 = 1 :=
  ⟨by decide, by decide,
    ((settleResult_table 0 2 (by decide) (by decide)).2.2.1).mpr (Or.inl ⟨rfl, rfl⟩)⟩

/-! ### Claim C7: precondition order of `acceptChallenge` -/

/-- C7: `acceptChallenge` checks its preconditions in the fixed order
range, state, active-match, self-join, and reports the error of the first
failing check; in particular `joinMatch 0` and `joinMatch` of an id at or
beyond `matchCounter` fail with `InvalidMatchId` regardless of caller. -/
theorem joinMatch_error_priority (s : Arena) (sender matchId : Nat) :
    (acceptChallenge sender matchId s = .error .InvalidMatchId ↔
      (matchId = 0 ∨ matchId ≥ s.matchCounter)) ∧
    (acceptChallenge sender matchId s = .error .MatchNotWaiting ↔
      (¬(matchId = 0 ∨ matchId ≥ s.matchCounter) ∧
        (s.matchesMap matchId).state ≠ MatchState.Waiting)) ∧
    (acceptChallenge sender matchId s = .error .AlreadyInMatch ↔
      (¬(matchId = 0 ∨ matchId ≥ s.matchCounter) ∧
        (s.matchesMap matchId).state = MatchState.Waiting ∧
        s.playerActiveMatch sender ≠ 0)) ∧
    (acceptChallenge sender matchId s = .error .UnauthorizedPlayer ↔
      (¬(matchId = 0 ∨ matchId ≥ s.matchCounter) ∧
        (s.matchesMap matchId).state = MatchState.Waiting ∧
        s.playerActiveMatch sender = 0 ∧
        (s.matchesMap matchId).player1 = sender)) := by
  by_cases h1 : matchId = 0 ∨ matchId ≥ s.matchCounter
  · simp [acceptChallenge, h1]
  · by_cases h2 : (s.matchesMap matchId).state = MatchState.Waiting
    · by_cases h3 : s.playerActiveMatch sender = 0
      · by_cases h4 : (s.matchesMap matchId).player1 = sender
        · simp [acceptChallenge, h1, h2, h3, h4]
        · simp [acceptChallenge, h1, h2, h3, h4]
      · simp [acceptChallenge, h1, h2, h3]
    · simp [acceptChallenge, h1, h2]

/-! ### Claim C1: joining never moves the match out of `Waiting`, so a
second join succeeds instead of failing with `MatchNotWaiting` -/

/-- C1 fails on the code: after player 2 has joined match 1, the match is
still in `Waiting` state, and a further `acceptChallenge` by a fresh
player 3 succeeds, overwriting the opponent slot and changing the
active-match map — instead of failing with `MatchNotWaiting`. -/
theorem joinTwice_succeeds_overwriting_opponent :
    (joinedState.matchesMap 1).player2 = 2 ∧
    (joinedState.matchesMap 1).state = MatchState.Waiting ∧
    succeeds (acceptChallenge 3 1 joinedState) = true ∧
    ((applyOp joinedState (Op.join 3 1)).matchesMap 1).player2 = 3 ∧
    (applyOp joinedState (Op.join 3 1)).playerActiveMatch 2 = 1 ∧
    (applyOp joinedState (Op.join 3 1)).playerActiveMatch 3 = 1 := by
  decide

/-! ### Claim C2: cancellation succeeds even after a join -/

/-- C2 fails on the code: after player 2 has joined match 1 the state is
still `Waiting`, so `cancelMatch` by the initiator succeeds (moving the
match to `Cancelled` and stranding the opponent's active-match entry)
instead of failing with `MatchNotWaiting`. -/
theorem cancelAfterJoin_succeeds :
    (joinedState.matchesMap 1).player2 = 2 ∧
    succeeds (cancelMatch 1 1 joinedState) = true ∧
    ((applyOp joinedState (Op.cancel 1 1)).matchesMap 1).state = MatchState.Cancelled ∧
    (applyOp joinedState (Op.cancel 1 1)).playerActiveMatch 1 = 0 ∧
    (applyOp joinedState (Op.cancel 1 1)).playerActiveMatch 2 = 1 := by
  decide

/-! ### Claim C3: the active-match invariant is violated in a reachable
state -/

/-- C3 fails on the code: after create / join / cancel, the reachable
storage has `playerActiveMatch 2 = 1` although match 1 is in the terminal
`Cancelled` state. -/
theorem activeMatch_invariant_violated :
    Reachable cancelledAfterJoinState ∧
    cancelledAfterJoinState.playerActiveMatch 2 = 1 ∧
    (cancelledAfterJoinState.matchesMap 1).state = MatchState.Cancelled := by
  refine ⟨?_, by decide, by decide⟩
  exact Reachable.step _ (Op.cancel 1 1)
    (Reachable.step _ (Op.join 2 1)
      (Reachable.step _ (Op.create 1 0) Reachable.init (by decide))
      (by decide))
    (by decide)

/-! ### Claim C6: a `Cancelled` match can transition to `BothCommitted` -/

/-- C6 fails on the code: in a reachable storage match 1 is `Cancelled`
with the initiator's move committed and an uncommitted opponent; the
opponent's `submitMove` then succeeds and moves the match from
`Cancelled` to `BothCommitted` — a transition out of a terminal state. -/
theorem cancelled_match_reaches_bothCommitted :
    Reachable cancelledCommittedState ∧
    (cancelledCommittedState.matchesMap 1).state = MatchState.Cancelled ∧
    succeeds (submitMove 2 1 2 cancelledCommittedState) = true ∧
    ((applyOp cancelledCommittedState (Op.submit 2 1 2)).matchesMap 1).state =
      MatchState.BothCommitted ∧
    Reachable (applyOp cancelledCommittedState (Op.submit 2 1 2)) := by
  have hreach : Reachable cancelledCommittedState :=
    Reachable.step _ (Op.cancel 1 1)
      (Reachable.step _ (Op.join 2 1)
        (Reachable.step _ (Op.submit 1 1 0)
          (Reachable.step _ (Op.create 1 0) Reachable.init (by decide))
          (by decide))
        (by decide))
      (by decide)
  exact ⟨hreach, by decide, by decide, by decide,
    Reachable.step _ (Op.submit 2 1 2) hreach (by decide)⟩

/-! ### Claim C5: the pending list is exactly the waiting, unjoined
matches, with no duplicates -/

/-- C5: in every reachable storage the pending list has no duplicates and
contains exactly the ids of matches whose state is `Waiting` and whose
opponent slot is unset. -/
theorem pendingMatches_exact (s : Arena) (hr : Reachable s) :
    s.pendingMatches.Nodup ∧
    ∀ id, id ∈ s.pendingMatches ↔
      ((s.matchesMap id).state = MatchState.Waiting ∧
        (s.matchesMap id).player2 = 0) := by
  have h := reachable_inv s hr
  exact ⟨h.2.1, h.2.2.1⟩

/-- Witness for C5 on a concrete reachable storage with two pending
matches. -/
theorem pendingMatches_exact_witness :
    twoPendingState.pendingMatches.Nodup ∧
    (1 ∈ twoPendingState.pendingMatches ↔
      ((twoPendingState.matchesMap 1).state = MatchState.Waiting ∧
        (twoPendingState.matchesMap 1).player2 = 0)) := by
  have hr : Reachable twoPendingState :=
    Reachable.step _ (Op.create 2 0)
      (Reachable.step _ (Op.create 1 0) Reachable.init (by decide))
      (by decide)
  exact ⟨(pendingMatches_exact _ hr).1, (pendingMatches_exact _ hr).2 1⟩

/-! ### Claim C9: `cancelMatch` on an out-of-range id -/

/-- C9: `cancelMatch` can never report `InvalidMatchId`; on any reachable
storage, a call by a nonzero sender with `matchId` outside the allocated
range `[1, matchCounter)` fails with `UnauthorizedPlayer`, because the
unallocated match's initiator is the zero address. -/
theorem cancelMatch_outOfRange (s : Arena) (sender matchId : Nat)
    (hreach : Reachable s) (hs : sender ≠ 0)
    (hout : matchId = 0 ∨ s.matchCounter ≤ matchId) :
    cancelMatch sender matchId s = .error .UnauthorizedPlayer ∧
    ∀ (s2 : Arena) (sender2 matchId2 : Nat),
      cancelMatch sender2 matchId2 s2 ≠ .error .InvalidMatchId := by
  constructor
  · have h4 := (reachable_inv s hreach).2.2.2.1
    have hdef := h4 matchId hout
    have hp1 : (s.matchesMap matchId).player1 ≠ sender := by
      rw [hdef]
      intro he
      exact hs (by simpa [emptyMatch] using he.symm)
    simp [cancelMatch, hp1]
  · intro s2 sender2 matchId2
    by_cases ha : (s2.matchesMap matchId2).player1 = sender2
    · by_cases hb : (s2.matchesMap matchId2).state = MatchState.Waiting
      · simp [cancelMatch, ha, hb]
      · simp [cancelMatch, ha, hb]
    · simp [cancelMatch, ha]

/-- Witness for C9 at `matchId = 0` on the deployment storage. -/
theorem cancelMatch_outOfRange_witness :
    cancelMatch 5 0 initialArena = .error .UnauthorizedPlayer :=
  (cancelMatch_outOfRange initialArena 5 0 Reachable.init (by decide) (Or.inl rfl)).1

/-! ### Claim C10: `submitMove` imposes no match-state precondition -/

/-- C10: whenever the caller occupies a player slot of the match and the
checks `isPlayer1 ∧ player1Committed` and `isPlayer2 ∧ player2Committed`
both fail, `submitMove` succeeds regardless of the match's state, stores
the move handle in the caller's slot (the initiator slot taking
precedence), sets the committed flag and emits the move-committed
event. -/
theorem submitMove_no_state_guard (s : Arena) (sender matchId mv : Nat)
    (hauth : (s.matchesMap matchId).player1 = sender ∨
      (s.matchesMap matchId).player2 = sender)
    (hc1 : ¬((s.matchesMap matchId).player1 = sender ∧
      (s.matchesMap matchId).player1Committed = true))
    (hc2 : ¬((s.matchesMap matchId).player2 = sender ∧
      (s.matchesMap matchId).player2Committed = true)) :
    succeeds (submitMove sender matchId mv s) = true ∧
    (applyOp s (Op.submit sender matchId mv)).events =
      s.events ++ [Event.MoveCommitted matchId sender] ∧
    ((s.matchesMap matchId).player1 = sender →
      ((applyOp s (Op.submit sender matchId mv)).matchesMap matchId).move1 = mv ∧
      ((applyOp s (Op.submit sender matchId mv)).matchesMap matchId).player1Committed = true) ∧
    ((s.matchesMap matchId).player1 ≠ sender →
      ((applyOp s (Op.submit sender matchId mv)).matchesMap matchId).move2 = mv ∧
      ((applyOp s (Op.submit sender matchId mv)).matchesMap matchId).player2Committed = true) := by
  by_cases hip1 : (s.matchesMap matchId).player1 = sender
  · have hp1c' : (s.matchesMap matchId).player1Committed = false := by
      cases hcc : (s.matchesMap matchId).player1Committed
      · rfl
      · exact absurd ⟨hip1, hcc⟩ hc1
    cases hcc2 : (s.matchesMap matchId).player2Committed
    · refine ⟨?_, ?_, fun _ => ?_, fun hne => absurd hip1 hne⟩
      · simp [succeeds, submitMove, hip1, hp1c', hcc2]
      · simp [applyOp, submitMove, hip1, hp1c', hcc2]
      · constructor
        · simp [applyOp, submitMove, hip1, hp1c', hcc2, setAt_same]
        · simp [applyOp, submitMove, hip1, hp1c', hcc2, setAt_same]
    · have hip2' : ¬((s.matchesMap matchId).player2 = sender) := fun hp =>
        hc2 ⟨hp, hcc2⟩
      refine ⟨?_, ?_, fun _ => ?_, fun hne => absurd hip1 hne⟩
      · simp [succeeds, submitMove, hip1, hip2', hp1c', hcc2]
      · simp [applyOp, submitMove, hip1, hip2', hp1c', hcc2]
      · constructor
        · simp [applyOp, submitMove, hip1, hip2', hp1c', hcc2, setAt_same]
        · simp [applyOp, submitMove, hip1, hip2', hp1c', hcc2, setAt_same]
  · have hip2 : (s.matchesMap matchId).player2 = sender := hauth.resolve_left hip1
    have hp2c' : (s.matchesMap matchId).player2Committed = false := by
      cases hcc : (s.matchesMap matchId).player2Committed
      · rfl
      · exact absurd ⟨hip2, hcc⟩ hc2
    cases hcc1 : (s.matchesMap matchId).player1Committed
    · refine ⟨?_, ?_, fun hp => absurd hp hip1, fun _ => ?_⟩
      · simp [succeeds, submitMove, hip1, hip2, hp2c', hcc1]
      · simp [applyOp, submitMove, hip1, hip2, hp2c', hcc1]
      · constructor
        · simp [applyOp, submitMove, hip1, hip2, hp2c', hcc1, setAt_same]
        · simp [applyOp, submitMove, hip1, hip2, hp2c', hcc1, setAt_same]
    · refine ⟨?_, ?_, fun hp => absurd hp hip1, fun _ => ?_⟩
      · simp [succeeds, submitMove, hip1, hip2, hp2c', hcc1]
      · simp [applyOp, submitMove, hip1, hip2, hp2c', hcc1]
      · constructor
        · simp [applyOp, submitMove, hip1, hip2, hp2c', hcc1, setAt_same]
        · simp [applyOp, submitMove, hip1, hip2, hp2c', hcc1, setAt_same]

/-- Witness for C10: the initiator of a `Cancelled` match (whose slot is
uncommitted) successfully commits a move. -/
theorem submitMove_no_state_guard_witness :
    (cancelledStateForSubmit.matchesMap 1).state = MatchState.Cancelled ∧
    succeeds (submitMove 1 1 0 cancelledStateForSubmit) = true ∧
    ((applyOp cancelledStateForSubmit (Op.submit 1 1 0)).matchesMap 1).player1Committed =
      true := by
  refine ⟨by decide, ?_, ?_⟩
  · exact (submitMove_no_state_guard cancelledStateForSubmit 1 1 0
      (Or.inl (by decide)) (by decide) (by decide)).1
  · exact ((submitMove_no_state_guard cancelledStateForSubmit 1 1 0
      (Or.inl (by decide)) (by decide) (by decide)).2.2.1 (by decide)).2

/-! ### Claim C8: effects and frame of a successful `requestReveal` -/

/-- C8: a `requestReveal` by a participant of a `BothCommitted` match in a
reachable storage succeeds; afterwards the match is `Revealed`, both
participants' active-match entries are cleared, both participants'
`totalMatches` counters grow by exactly one, and every player's `wins`,
`losses`, `draws` and `currentStreak` counters are unchanged. -/
theorem requestReveal_effects (s : Arena) (sender matchId : Nat)
    (hreach : Reachable s)
    (hbc : (s.matchesMap matchId).state = MatchState.BothCommitted)
    (hpart : sender = (s.matchesMap matchId).player1 ∨
      sender = (s.matchesMap matchId).player2) :
    succeeds (requestReveal sender matchId s) = true ∧
    ((applyOp s (Op.reveal sender matchId)).matchesMap matchId).state =
      MatchState.Revealed ∧
    (applyOp s (Op.reveal sender matchId)).playerActiveMatch
      (s.matchesMap matchId).player1 = 0 ∧
    (applyOp s (Op.reveal sender matchId)).playerActiveMatch
      (s.matchesMap matchId).player2 = 0 ∧
    ((applyOp s (Op.reveal sender matchId)).playerStats
        (s.matchesMap matchId).player1).totalMatches =
      (s.playerStats (s.matchesMap matchId).player1).totalMatches + 1 ∧
    ((applyOp s (Op.reveal sender matchId)).playerStats
        (s.matchesMap matchId).player2).totalMatches =
      (s.playerStats (s.matchesMap matchId).player2).totalMatches + 1 ∧
    ∀ p, ((applyOp s (Op.reveal sender matchId)).playerStats p).wins =
        (s.playerStats p).wins ∧
      ((applyOp s (Op.reveal sender matchId)).playerStats p).losses =
        (s.playerStats p).losses ∧
      ((applyOp s (Op.reveal sender matchId)).playerStats p).draws =
        (s.playerStats p).draws ∧
      ((applyOp s (Op.reveal sender matchId)).playerStats p).currentStreak =
        (s.playerStats p).currentStreak := by
  obtain ⟨-, -, -, -, h5, h6, h7⟩ := reachable_inv s hreach
  have hp2ne : (s.matchesMap matchId).player2 ≠ 0 := h6 matchId (h7 matchId hbc)
  have hne : (s.matchesMap matchId).player1 ≠ (s.matchesMap matchId).player2 :=
    h5 matchId hp2ne
  have hauth : ¬(sender ≠ (s.matchesMap matchId).player1 ∧
      sender ≠ (s.matchesMap matchId).player2) := by
    rcases hpart with hp | hp
    · exact fun hcon => hcon.1 hp
    · exact fun hcon => hcon.2 hp
  have happ : applyOp s (Op.reveal sender matchId) = settleMatch matchId s := by
    simp [applyOp, requestReveal, hbc, hauth]
  refine ⟨by simp [succeeds, requestReveal, hbc, hauth], ?_, ?_, ?_, ?_, ?_, ?_⟩
  · rw [happ]
    simp [settleMatch, updateStats, setAt_same]
  · rw [happ]
    simp [settleMatch, updateStats, setAt]
  · rw [happ]
    simp [settleMatch, updateStats, setAt]
  · rw [happ]
    simp [settleMatch, updateStats, setAt, setAt_same, hne]
  · rw [happ]
    simp [settleMatch, updateStats, setAt, setAt_same, Ne.symm hne]
  · intro p
    rw [happ]
    by_cases hpp2 : p = (s.matchesMap matchId).player2
    · subst hpp2
      simp [settleMatch, updateStats, setAt, Ne.symm hne]
    · by_cases hpp1 : p = (s.matchesMap matchId).player1
      · subst hpp1
        simp [settleMatch, updateStats, setAt, hne, hpp2]
      · simp [settleMatch, updateStats, setAt, hpp1, hpp2]

/-- Witness for C8 on a concrete reachable storage whose match 1 is
`BothCommitted`. -/
theorem requestReveal_effects_witness :
    succeeds (requestReveal 1 1 bothCommittedState) = true ∧
    ((applyOp bothCommittedState (Op.reveal 1 1)).matchesMap 1).state =
      MatchState.Revealed ∧
    (applyOp bothCommittedState (Op.reveal 1 1)).playerActiveMatch 1 = 0 ∧
    (applyOp bothCommittedState (Op.reveal 1 1)).playerActiveMatch 2 = 0 ∧
    ((applyOp bothCommittedState (Op.reveal 1 1)).playerStats 1).totalMatches =
      (bothCommittedState.playerStats 1).totalMatches + 1 ∧
    ((applyOp bothCommittedState (Op.reveal 1 1)).playerStats 2).wins =
      (bothCommittedState.playerStats 2).wins := by
  have hreach : Reachable bothCommittedState :=
    Reachable.step _ (Op.submit 2 1 2)
      (Reachable.step _ (Op.submit 1 1 0)
        (Reachable.step _ (Op.join 2 1)
          (Reachable.step _ (Op.create 1 0) Reachable.init (by decide))
          (by decide))
        (by decide))
      (by decide)
  have h := requestReveal_effects bothCommittedState 1 1 hreach (by decide)
    (Or.inl (by decide))
  exact ⟨h.1, h.2.1, h.2.2.1, h.2.2.2.1, h.2.2.2.2.1, (h.2.2.2.2.2.2 2).1⟩

end RockPaperArena
